import Mathlib

/-!
Shallow embedding of `src/chatbot.py` (class `NewsChatbot`): the intent
classification and response dispatch of `process_query`, the news fetching
and article formatting of `get_news`, and the constructor state built by
`NewsChatbot.__init__`.  External collaborators (the spaCy entity extractor,
the NewsAPI client, and `dateutil.parser.parse`) are modelled as explicit
parameters, matching the spec's treatment of them as black boxes.
-/

/-- Python `str.lower()` applied characterwise (the inputs of interest are
ASCII keyword tests, where `Char.toLower` agrees with Python). -/
def pyLower (s : String) : String := String.mk (s.data.map Char.toLower)

/-- Python's substring test `needle in haystack` on strings. -/
def substrB (needle haystack : String) : Bool :=
  haystack.data.tails.any (fun t => needle.data.isPrefixOf t)

/-- Python `any(word in haystack for word in ws)`. -/
def containsAny (haystack : String) (ws : List String) : Bool :=
  ws.any (fun w => substrB w haystack)

/-- A named entity produced by the external extractor: `ent.text` and
`ent.label_` of a spaCy entity. -/
structure Entity where
  text : String
  label : String

/-- The `source` field of a NewsAPI article record. -/
structure NewsSource where
  name : String

/-- An article record of the NewsAPI JSON response, as consumed by
`get_news`: all fields read by the formatter. -/
structure Article where
  title : String
  publishedAt : String
  source : NewsSource
  description : Option String
  url : String

/-- A calendar date, the result of `dateutil.parser.parse` as far as the
`strftime("%B %d, %Y")` rendering consumes it. -/
structure DateRec where
  year : Nat
  month : Nat
  day : Nat

def monthNames : List String :=
  ["January", "February", "March", "April", "May", "June", "July",
   "August", "September", "October", "November", "December"]

def monthName (m : Nat) : String := monthNames.getD (m - 1) ""

/-- Zero-padded two-digit rendering, as `%d` does for day numbers. -/
def pad2 (n : Nat) : String := if n < 10 then "0" ++ toString n else toString n

/-- `strftime("%B %d, %Y")`: full month name, zero-padded day, year. -/
def strftimeBdY (d : DateRec) : String :=
  monthName d.month ++ " " ++ pad2 d.day ++ ", " ++ toString d.year

/-- Behaviour of the external NewsAPI client.  Each endpoint either raises
(error description string) or returns the `articles` list of its JSON
response; the fixed `language` / `country` / `sort_by` arguments of the
calls in `get_news` are absorbed into the behaviour. -/
structure NewsApi where
  getEverything : String → Except String (List Article)
  getTopHeadlinesCat : String → Except String (List Article)
  getTopHeadlines : Except String (List Article)

/-- The attributes `NewsChatbot.__init__` stores on `self`. -/
structure ChatbotState where
  newsApi : Option NewsApi
  categories : List (String × String)
  responses : List (String × List String)

/-- `self.categories` as initialised (Python dicts iterate in insertion
order, so the key order below is the scan order). -/
def categoriesInit : List (String × String) :=
  [("business", "Business news"),
   ("entertainment", "Entertainment news"),
   ("health", "Health news"),
   ("science", "Science news"),
   ("sports", "Sports news"),
   ("technology", "Technology news")]

/-- The category keys in their fixed scan order. -/
def categoryKeys : List String :=
  ["business", "entertainment", "health", "science", "sports", "technology"]

/-- `self.responses` as initialised. -/
def responsesInit : List (String × List String) :=
  [("greeting",
    ["Hello! I'm your news assistant. What would you like to know about?",
     "Hi there! I can help you stay updated with the latest news. What interests you?",
     "Hey! Ready to explore the latest news? What would you like to know?"]),
   ("goodbye",
    ["Goodbye! Stay informed!",
     "See you later! Keep up with the news!",
     "Take care! Come back for more news updates!"]),
   ("thanks",
    ["You're welcome! Let me know if you need more news updates!",
     "No problem! Feel free to ask for more news anytime!",
     "Glad I could help! Stay tuned for more news!"]),
   ("default",
    ["I'm not sure about that. Would you like to know about the latest news instead?",
     "I'm focused on delivering news. Would you like to know about current events?",
     "I can help you with the latest news. What would you like to know?"])]

/-- The credential check of `__init__`: `if not api_key or api_key ==
'your_news_api_key_here': self.news_api = None`.  `not api_key` is true for
a missing variable (`None`) and for the empty string. -/
def initNewsApi (apiKey : Option String) (client : NewsApi) : Option NewsApi :=
  match apiKey with
  | none => none
  | some k => if k = "" || k = "your_news_api_key_here" then none else some client

/-- The chatbot state after `__init__`, given the credential read from the
environment and the behaviour the client library would have. -/
def mkChatbot (apiKey : Option String) (client : NewsApi) : ChatbotState :=
  { newsApi := initNewsApi apiKey client
    categories := categoriesInit
    responses := responsesInit }

/-- Python truthiness of an optional string (`None` and `""` are falsy). -/
def truthy : Option String → Bool
  | none => false
  | some s => !(s == "")

/-- The dispatch at the top of `get_news`: `if query: ... elif category:
... else: ...`. -/
def fetchNews (api : NewsApi) (query category : Option String) :
    Except String (List Article) :=
  if truthy query then api.getEverything (query.getD "")
  else if truthy category then api.getTopHeadlinesCat (category.getD "")
  else api.getTopHeadlines

/-- The `if article.get('description'):` segment of the article template. -/
def descPart (a : Article) : String :=
  if truthy a.description then "   📝 " ++ a.description.getD "" ++ "\n" else ""

/-- The text appended for one article, given the already-rendered date. -/
def articleBlock (a : Article) (ds : String) : String :=
  "📌 " ++ a.title ++ "\n" ++ "   📅 " ++ ds ++ "\n" ++
    "   📰 Source: " ++ a.source.name ++ "\n" ++ descPart a ++
    "   🔗 " ++ a.url ++ "\n\n"

/-- Formatting one article; `parser.parse` (the external date parser `dp`)
may raise, which propagates to the enclosing `try`. -/
def formatArticle (dp : String → Except String DateRec) (a : Article) :
    Except String String := do
  let d ← dp a.publishedAt
  pure (articleBlock a (strftimeBdY d))

/-- The formatting loop over the truncated article list: the blocks appended
to `response`, in order; the first raised exception propagates. -/
def mapExcept (f : Article → Except String String) :
    List Article → Except String (List String)
  | [] => Except.ok []
  | a :: rest => do
    let b ← f a
    let bs ← mapExcept f rest
    pure (b :: bs)

/-- The body of the `try:` block of `get_news`: fetch, truncate to `count`,
format each article, and prepend the header line. -/
def newsRun (api : NewsApi) (dp : String → Except String DateRec)
    (query category : Option String) (count : Nat) : Except String String := do
  let articles ← fetchNews api query category
  let entries ← mapExcept (formatArticle dp) (articles.take count)
  pure ("📰 Here are the latest news articles:\n\n" ++ String.join entries)

/-- `get_news(query, category, count=5)`: the unconfigured short-circuit,
then the `try/except` around fetching and formatting. -/
def getNews (st : ChatbotState) (dp : String → Except String DateRec)
    (query category : Option String) (count : Nat := 5) : String :=
  match st.newsApi with
  | none => "News API is not configured. Please set your News API key in the .env file."
  | some api =>
    match newsRun api dp query category count with
    | Except.ok s => s
    | Except.error e => "Sorry, I couldn't fetch the news at the moment. Error: " ++ e

def newsTriggerWords : List String := ["news", "headlines", "latest", "updates"]

def greetingWords : List String := ["hello", "hi", "hey"]

def goodbyeWords : List String := ["bye", "goodbye", "see you"]

def thanksWords : List String := ["thanks", "thank you", "appreciate"]

/-- The entity loop of `process_query`: the first entity labelled ORG, GPE
or PERSON, if any, gives the topic. -/
def firstTopic (ents : List Entity) : Option String :=
  (ents.find? (fun e => ["ORG", "GPE", "PERSON"].contains e.label)).map Entity.text

/-- `random.choice(l)` with the random draw made explicit as an index. -/
def pick (l : List String) (n : Nat) : String := l.getD (n % l.length) ""

/-- `self.responses[k]`. -/
def lookupPool (st : ChatbotState) (k : String) : List String :=
  ((st.responses.find? (fun p => p.1 == k)).map Prod.snd).getD []

/-- `process_query(user_input)`.  The spaCy entities of the input and the
random draw are explicit parameters; the returned pair carries the (never
reassigned) object state to make the frame condition statable. -/
def processQueryS (st : ChatbotState) (dp : String → Except String DateRec)
    (ents : List Entity) (choice : Nat) (userInput : String) :
    String × ChatbotState :=
  let inputLower := pyLower userInput
  let keys := st.categories.map Prod.fst
  let response :=
    if containsAny inputLower newsTriggerWords then
      match keys.find? (fun c => substrB c inputLower) with
      | some cat => getNews st dp none (some cat)
      | none =>
        match firstTopic ents with
        | some t => getNews st dp (some t) none
        | none => getNews st dp none none
    else
      match keys.find? (fun c => substrB c inputLower) with
      | some cat => getNews st dp none (some cat)
      | none =>
        if containsAny inputLower greetingWords then pick (lookupPool st "greeting") choice
        else if containsAny inputLower goodbyeWords then pick (lookupPool st "goodbye") choice
        else if containsAny inputLower thanksWords then pick (lookupPool st "thanks") choice
        else pick (lookupPool st "default") choice
  (response, st)

/-- Modelled from the spec: the repository has a second, time/date-aware
variant of the chatbot that is not under `src/` (only the categorized-emoji
variant is).  Spec section 4.1 steps 3 and 4 place a time-keyword check
("time", "clock") and then a date-keyword check ("date", "day", "today")
after the news checks and before the conversational checks, and sections
4.2 and 8 give the DateQuery rendering `Today's date is Month DD, YYYY`.
`now` is the frozen clock date and `timeStr` the rendered wall-clock time. -/
def processQueryDated (st : ChatbotState) (dp : String → Except String DateRec)
    (ents : List Entity) (choice : Nat) (now : DateRec) (timeStr : String)
    (userInput : String) : String :=
  let inputLower := pyLower userInput
  let keys := st.categories.map Prod.fst
  if containsAny inputLower newsTriggerWords then
    match keys.find? (fun c => substrB c inputLower) with
    | some cat => getNews st dp none (some cat)
    | none =>
      match firstTopic ents with
      | some t => getNews st dp (some t) none
      | none => getNews st dp none none
  else
    match keys.find? (fun c => substrB c inputLower) with
    | some cat => getNews st dp none (some cat)
    | none =>
      if containsAny inputLower ["time", "clock"] then timeStr
      else if containsAny inputLower ["date", "day", "today"] then
        "Today's date is " ++ strftimeBdY now
      else if containsAny inputLower greetingWords then pick (lookupPool st "greeting") choice
      else if containsAny inputLower goodbyeWords then pick (lookupPool st "goodbye") choice
      else if containsAny inputLower thanksWords then pick (lookupPool st "thanks") choice
      else pick (lookupPool st "default") choice

/-! Helper lemmas about the embedded operations. -/

theorem substrB_iff (n h : String) : substrB n h = true ↔ n.data <:+: h.data := by
  simp only [substrB, List.any_eq_true, List.mem_tails, List.infix_iff_prefix_suffix]
  constructor
  · rintro ⟨t, ht, hp⟩
    exact ⟨t, by simpa [ List.isPrefixOf_iff_prefix] using hp, ht⟩
  · rintro ⟨t, hp, ht⟩
    exact ⟨t, ht, by simpa [ List.isPrefixOf_iff_prefix] using hp⟩

theorem substrB_parts (n h : String) (p s : List Char)
    (hh : h.data = p ++ n.data ++ s) : substrB n h = true := by
  rw [substrB_iff, hh]
  exact ⟨p, s, rfl⟩

theorem pick_mem (l : List String) (n : Nat) (h : l ≠ []) : pick l n ∈ l := by
  have hl : 0 < l.length := List.length_pos.mpr h
  have hlt : n % l.length < l.length := Nat.mod_lt _ hl
  rw [pick, List.getD_eq_getElem l "" hlt]
  exact List.getElem_mem hlt

theorem not_mem_of_forall {x : String} {l₁ l₂ : List String}
    (h : x ∈ l₁) (hd : ∀ y ∈ l₁, ¬ y ∈ l₂) : ¬ x ∈ l₂ := fun hx => hd x h hx

theorem mkChatbot_keys (k : Option String) (c : NewsApi) :
    (mkChatbot k c).categories.map Prod.fst = categoryKeys := rfl

theorem title_in_block (a : Article) (ds : String) :
    substrB a.title (articleBlock a ds) = true := by
  apply substrB_parts _ _ ("📌 ".data)
      (("\n" ++ "   📅 " ++ ds ++ "\n" ++ "   📰 Source: " ++ a.source.name ++
        "\n" ++ descPart a ++ "   🔗 " ++ a.url ++ "\n\n").data)
  simp [articleBlock, String.data_append, List.append_assoc]

theorem url_in_block (a : Article) (ds : String) :
    substrB a.url (articleBlock a ds) = true := by
  apply substrB_parts _ _
      (("📌 " ++ a.title ++ "\n" ++ "   📅 " ++ ds ++ "\n" ++ "   📰 Source: " ++
        a.source.name ++ "\n" ++ descPart a ++ "   🔗 ").data)
      ("\n\n".data)
  simp [articleBlock, String.data_append, List.append_assoc]

theorem mapExcept_ok (dp : String → Except String DateRec) :
    ∀ (l : List Article),
      (∀ a ∈ l, ∃ d, dp a.publishedAt = Except.ok d) →
      ∃ es, mapExcept (formatArticle dp) l = Except.ok es ∧
        es.length = l.length ∧
        ∀ pr ∈ l.zip es, substrB pr.1.title pr.2 = true ∧ substrB pr.1.url pr.2 = true := by
  intro l
  induction l with
  | nil => exact fun _ => ⟨[], rfl, rfl, by simp⟩
  | cons a rest ih =>
    intro h
    obtain ⟨d, hd⟩ := h a (List.mem_cons_self a rest)
    obtain ⟨es, hes, hlen, hz⟩ := ih (fun x hx => h x (List.mem_cons_of_mem a hx))
    have hfa : formatArticle dp a = Except.ok (articleBlock a (strftimeBdY d)) := by
      rw [formatArticle, hd]
      rfl
    refine ⟨articleBlock a (strftimeBdY d) :: es, ?_, by simp [hlen], ?_⟩
    · simp only [mapExcept, hfa, hes]
      rfl
    · intro pr hpr
      rw [List.zip_cons_cons] at hpr
      rcases List.mem_cons.mp hpr with h1 | h2
      · subst h1
        exact ⟨title_in_block a _, url_in_block a _⟩
      · exact hz pr h2

/-- The response pools only depend on the constant `responses` table, so a
closed form is available for evaluation. -/
def poolOf (p : String) : List String :=
  lookupPool ⟨none, categoriesInit, responsesInit⟩ p

theorem lookupPool_mkChatbot (k : Option String) (c : NewsApi) (p : String) :
    lookupPool (mkChatbot k c) p = poolOf p := rfl

theorem pick_not_mem (l₁ l₂ : List String) (n : Nat) (h : l₁ ≠ [])
    (hd : ∀ y ∈ l₁, ¬ y ∈ l₂) : ¬ pick l₁ n ∈ l₂ :=
  not_mem_of_forall (pick_mem l₁ n h) hd

/-- A stub collaborator used to instantiate witnesses: every call raises. -/
def stubClient : NewsApi :=
  { getEverything := fun _ => Except.error "stub"
    getTopHeadlinesCat := fun _ => Except.error "stub"
    getTopHeadlines := Except.error "stub" }

/-- A stub date parser that always raises. -/
def stubDp : String → Except String DateRec := fun _ => Except.error "stub"

/-- A date parser that always succeeds, for formatting witnesses. -/
def okDp : String → Except String DateRec := fun _ => Except.ok ⟨2024, 1, 1⟩

/-- Sample articles for the formatting witnesses. -/
def sampleArticle (i : Nat) : Article :=
  { title := "Title " ++ toString i
    publishedAt := "2024-01-01T00:00:00Z"
    source := ⟨"Source " ++ toString i⟩
    description := none
    url := "https://example.com/" ++ toString i }

def sampleArticles : List Article := (List.range 6).map sampleArticle

/-- A client whose every endpoint returns the six sample articles. -/
def okClient : NewsApi :=
  { getEverything := fun _ => Except.ok sampleArticles
    getTopHeadlinesCat := fun _ => Except.ok sampleArticles
    getTopHeadlines := Except.ok sampleArticles }

/-! The claims. -/

/-- C10: `process_query` mutates no chatbot state: under every input,
extractor output, collaborator behaviour and random draw, the state carried
out of the call — in particular the category map, the response template
pools, and the news-client field — is the state carried in. -/
theorem processQuery_frame (st : ChatbotState) (dp : String → Except String DateRec)
    (ents : List Entity) (choice : Nat) (input : String) :
    (processQueryS st dp ents choice input).2 = st ∧
      ((processQueryS st dp ents choice input).2).categories = st.categories ∧
      ((processQueryS st dp ents choice input).2).responses = st.responses ∧
      ((processQueryS st dp ents choice input).2).newsApi = st.newsApi :=
  ⟨rfl, rfl, rfl, rfl⟩

/-- C3: with the credential unset, empty, or equal to the placeholder, the
news client is `None` and `get_news` returns exactly the fixed
not-configured string for every query/category/count, with no call on the
collaborator; the input "latest technology news" then yields exactly this
string from `process_query`. -/
theorem unconfigured_fixed_message (client : NewsApi)
    (dp : String → Except String DateRec) (q c : Option String) (n : Nat)
    (key : Option String) (ents : List Entity) (choice : Nat)
    (hkey : key = none ∨ key = some "" ∨ key = some "your_news_api_key_here") :
    getNews (mkChatbot key client) dp q c n
        = "News API is not configured. Please set your News API key in the .env file." ∧
      (processQueryS (mkChatbot key client) dp ents choice "latest technology news").1
        = "News API is not configured. Please set your News API key in the .env file." := by
  have hapi : (mkChatbot key client).newsApi = none := by
    rcases hkey with h | h | h <;> subst h <;> rfl
  have hmsg : ∀ (q c : Option String) (n : Nat), getNews (mkChatbot key client) dp q c n
      = "News API is not configured. Please set your News API key in the .env file." := by
    intro q c n
    simp [getNews, hapi]
  refine ⟨hmsg q c n, ?_⟩
  have h1 : containsAny (pyLower "latest technology news") newsTriggerWords = true := by decide
  have h2 : categoryKeys.find? (fun c => substrB c (pyLower "latest technology news"))
      = some "technology" := by decide
  simp only [processQueryS, mkChatbot_keys, h1, if_true, h2]
  exact hmsg none (some "technology") 5

/-- C3 witness: with no credential at all, both parts hold at concrete
arguments. -/
theorem unconfigured_fixed_message_witness :
    getNews (mkChatbot none stubClient) stubDp none none 5
        = "News API is not configured. Please set your News API key in the .env file." ∧
      (processQueryS (mkChatbot none stubClient) stubDp [] 0 "latest technology news").1
        = "News API is not configured. Please set your News API key in the .env file." :=
  unconfigured_fixed_message stubClient stubDp none none 5 none [] 0 (Or.inl rfl)

/-- C4: in the time/date-aware variant (modelled from the spec, see
`processQueryDated`), the input "what's today's date" is classified as a
date query and answered exactly by "Today's date is " followed by the full
month name, the zero-padded day and the year of the frozen clock. -/
theorem date_query_renders_frozen_clock (apiKey : Option String) (client : NewsApi)
    (dp : String → Except String DateRec) (ents : List Entity) (choice : Nat)
    (now : DateRec) (timeStr : String) :
    processQueryDated (mkChatbot apiKey client) dp ents choice now timeStr
        "what's today's date"
      = "Today's date is " ++ monthName now.month ++ " " ++ pad2 now.day ++ ", "
          ++ toString now.year := by
  have h0 : containsAny (pyLower "what's today's date") newsTriggerWords = false := by decide
  have h1 : categoryKeys.find? (fun c => substrB c (pyLower "what's today's date"))
      = none := by decide
  have h2 : containsAny (pyLower "what's today's date") ["time", "clock"] = false := by decide
  have h3 : containsAny (pyLower "what's today's date") ["date", "day", "today"] = true := by decide
  simp only [processQueryDated, mkChatbot_keys, h0, h1, h2, h3, Bool.false_eq_true,
    if_false, if_true]
  simp [strftimeBdY, String.append_assoc]

/-- C5: a failure raised anywhere inside the `try:` of `get_news` — fetching
or formatting — is not propagated: the result is exactly the apology string
followed by the textual description of the error. -/
theorem failure_becomes_apology (k : String) (client : NewsApi)
    (dp : String → Except String DateRec) (q c : Option String) (n : Nat) (e : String)
    (hk1 : ¬ k = "") (hk2 : ¬ k = "your_news_api_key_here")
    (hrun : newsRun client dp q c n = Except.error e) :
    getNews (mkChatbot (some k) client) dp q c n
      = "Sorry, I couldn't fetch the news at the moment. Error: " ++ e := by
  have hapi : (mkChatbot (some k) client).newsApi = some client := by
    simp [mkChatbot, initNewsApi, hk1, hk2]
  simp [getNews, hapi, hrun]

/-- C5 witness: a client whose headline call raises is answered with the
apology embedding the raised description. -/
theorem failure_becomes_apology_witness :
    getNews (mkChatbot (some "k") stubClient) stubDp none none 5
      = "Sorry, I couldn't fetch the news at the moment. Error: " ++ "stub" :=
  failure_becomes_apology "k" stubClient stubDp none none 5 "stub"
    (by decide) (by decide) rfl

/-- C1: an input containing a news-trigger keyword and a category keyword is
classified as a news query with the first matching category in the fixed
scan order, and the category suppresses entity-derived topics: `get_news`
is reached with the category set and no free-text query, whatever entities
the extractor returned. -/
theorem trigger_and_category_suppress_topic (apiKey : Option String) (client : NewsApi)
    (dp : String → Except String DateRec) (ents : List Entity) (choice : Nat)
    (input : String)
    (htrig : containsAny (pyLower input) newsTriggerWords = true)
    (hcat : ∃ c ∈ categoryKeys, substrB c (pyLower input) = true) :
    ∃ cat, categoryKeys.find? (fun c => substrB c (pyLower input)) = some cat ∧
      (processQueryS (mkChatbot apiKey client) dp ents choice input).1
        = getNews (mkChatbot apiKey client) dp none (some cat) 5 := by
  have hsome : (categoryKeys.find? (fun c => substrB c (pyLower input))).isSome := by
    rw [List.find?_isSome]
    exact hcat
  obtain ⟨cat, hfind⟩ := Option.isSome_iff_exists.mp hsome
  refine ⟨cat, hfind, ?_⟩
  simp only [processQueryS, mkChatbot_keys, htrig, if_true, hfind]

/-- C1 witness: "latest sports news" with an ORG entity present still routes
to the sports category with no free-text query. -/
theorem trigger_and_category_suppress_topic_witness :
    ∃ cat, categoryKeys.find? (fun c => substrB c (pyLower "latest sports news")) = some cat ∧
      (processQueryS (mkChatbot (some "k") stubClient) stubDp
          [⟨"Tesla", "ORG"⟩] 0 "latest sports news").1
        = getNews (mkChatbot (some "k") stubClient) stubDp none (some cat) 5 :=
  trigger_and_category_suppress_topic (some "k") stubClient stubDp
    [⟨"Tesla", "ORG"⟩] 0 "latest sports news" (by decide)
    ⟨"sports", by decide, by decide⟩

/-- C2: an input containing a news-trigger keyword but no category keyword,
for which the extractor reports at least one ORG/GPE/PERSON entity, is
classified as a news query whose free-text topic is the text of the first
such entity in extractor order: `get_news` is reached with exactly that
query and no category. -/
theorem trigger_topic_from_first_entity (apiKey : Option String) (client : NewsApi)
    (dp : String → Except String DateRec) (ents : List Entity) (choice : Nat)
    (input : String)
    (htrig : containsAny (pyLower input) newsTriggerWords = true)
    (hnocat : ∀ c ∈ categoryKeys, substrB c (pyLower input) = false)
    (hent : ∃ e ∈ ents, ["ORG", "GPE", "PERSON"].contains e.label = true) :
    ∃ e, ents.find? (fun e => ["ORG", "GPE", "PERSON"].contains e.label) = some e ∧
      (processQueryS (mkChatbot apiKey client) dp ents choice input).1
        = getNews (mkChatbot apiKey client) dp (some e.text) none 5 := by
  have hnone : categoryKeys.find? (fun c => substrB c (pyLower input)) = none := by
    rw [List.find?_eq_none]
    intro x hx
    simp [hnocat x hx]
  have hsome : (ents.find? (fun e => ["ORG", "GPE", "PERSON"].contains e.label)).isSome := by
    rw [List.find?_isSome]
    exact hent
  obtain ⟨e, hfind⟩ := Option.isSome_iff_exists.mp hsome
  refine ⟨e, hfind, ?_⟩
  simp only [processQueryS, mkChatbot_keys, htrig, if_true, hnone, firstTopic, hfind,
    Option.map_some']

/-- C2 witness: "latest news on Tesla" with the extractor reporting the
single ORG entity Tesla queries the free text "Tesla". -/
theorem trigger_topic_from_first_entity_witness :
    ∃ e, ([⟨"Tesla", "ORG"⟩] : List Entity).find?
          (fun e => ["ORG", "GPE", "PERSON"].contains e.label) = some e ∧
      (processQueryS (mkChatbot (some "k") stubClient) stubDp
          [⟨"Tesla", "ORG"⟩] 0 "latest news on Tesla").1
        = getNews (mkChatbot (some "k") stubClient) stubDp (some e.text) none 5 :=
  trigger_topic_from_first_entity (some "k") stubClient stubDp
    [⟨"Tesla", "ORG"⟩] 0 "latest news on Tesla" (by decide) (by decide)
    ⟨⟨"Tesla", "ORG"⟩, List.mem_singleton.mpr rfl, by decide⟩

/-- C7: an input with no news-trigger keyword, no category keyword and no
conversational keyword falls through to the default pool even when the
extractor reports ORG/GPE/PERSON entities: the response is drawn from the
three default strings and no news lookup is reached. -/
theorem no_trigger_falls_to_default (apiKey : Option String) (client : NewsApi)
    (dp : String → Except String DateRec) (ents : List Entity) (choice : Nat)
    (input : String)
    (htrig : containsAny (pyLower input) newsTriggerWords = false)
    (hnocat : ∀ c ∈ categoryKeys, substrB c (pyLower input) = false)
    (hg : containsAny (pyLower input) greetingWords = false)
    (hb : containsAny (pyLower input) goodbyeWords = false)
    (ht : containsAny (pyLower input) thanksWords = false) :
    (processQueryS (mkChatbot apiKey client) dp ents choice input).1
        = pick (poolOf "default") choice ∧
      (processQueryS (mkChatbot apiKey client) dp ents choice input).1
        ∈ poolOf "default" := by
  have hnone : categoryKeys.find? (fun c => substrB c (pyLower input)) = none := by
    rw [List.find?_eq_none]
    intro x hx
    simp [hnocat x hx]
  have heq : (processQueryS (mkChatbot apiKey client) dp ents choice input).1
      = pick (poolOf "default") choice := by
    simp only [processQueryS, mkChatbot_keys, htrig, Bool.false_eq_true, if_false, hnone,
      hg, hb, ht, lookupPool_mkChatbot]
  exact ⟨heq, heq ▸ pick_mem _ choice (by decide)⟩

/-- C7 witness: "tell me about Tesla" with the extractor reporting the ORG
entity Tesla is answered from the default pool. -/
theorem no_trigger_falls_to_default_witness :
    (processQueryS (mkChatbot (some "k") stubClient) stubDp
          [⟨"Tesla", "ORG"⟩] 0 "tell me about Tesla").1
        = pick (poolOf "default") 0 ∧
      (processQueryS (mkChatbot (some "k") stubClient) stubDp
          [⟨"Tesla", "ORG"⟩] 0 "tell me about Tesla").1
        ∈ poolOf "default" :=
  no_trigger_falls_to_default (some "k") stubClient stubDp [⟨"Tesla", "ORG"⟩] 0
    "tell me about Tesla" (by decide) (by decide) (by decide) (by decide) (by decide)

/-- C8: an input containing a category keyword but no news-trigger keyword
is classified as a news query with the first matching category in the fixed
iteration order; this check runs before every conversational check, so the
input is routed to the news lookup and not to any template pool. -/
theorem category_alone_precedes_conversation (apiKey : Option String) (client : NewsApi)
    (dp : String → Except String DateRec) (ents : List Entity) (choice : Nat)
    (input : String)
    (htrig : containsAny (pyLower input) newsTriggerWords = false)
    (hcat : ∃ c ∈ categoryKeys, substrB c (pyLower input) = true) :
    ∃ cat, categoryKeys.find? (fun c => substrB c (pyLower input)) = some cat ∧
      (processQueryS (mkChatbot apiKey client) dp ents choice input).1
        = getNews (mkChatbot apiKey client) dp none (some cat) 5 := by
  have hsome : (categoryKeys.find? (fun c => substrB c (pyLower input))).isSome := by
    rw [List.find?_isSome]
    exact hcat
  obtain ⟨cat, hfind⟩ := Option.isSome_iff_exists.mp hsome
  refine ⟨cat, hfind, ?_⟩
  simp only [processQueryS, mkChatbot_keys, htrig, Bool.false_eq_true, if_false, hfind]

/-- C8 witness: "hello sports" contains a greeting keyword and no trigger
word, yet is routed to the sports category, not to the greeting pool. -/
theorem category_alone_precedes_conversation_witness :
    ∃ cat, categoryKeys.find? (fun c => substrB c (pyLower "hello sports")) = some cat ∧
      (processQueryS (mkChatbot (some "k") stubClient) stubDp [] 0 "hello sports").1
        = getNews (mkChatbot (some "k") stubClient) stubDp none (some cat) 5 :=
  category_alone_precedes_conversation (some "k") stubClient stubDp [] 0
    "hello sports" (by decide) ⟨"sports", by decide, by decide⟩

theorem newsRun_ok (api : NewsApi) (dp : String → Except String DateRec)
    (q c : Option String) (n : Nat) (arts : List Article) (es : List String)
    (hf : fetchNews api q c = Except.ok arts)
    (hm : mapExcept (formatArticle dp) (arts.take n) = Except.ok es) :
    newsRun api dp q c n
      = Except.ok ("📰 Here are the latest news articles:\n\n" ++ String.join es) := by
  have h1 : newsRun api dp q c n
      = mapExcept (formatArticle dp) (arts.take n) >>= fun entries =>
          pure ("📰 Here are the latest news articles:\n\n" ++ String.join entries) := by
    unfold newsRun
    rw [hf]
    rfl
  rw [h1, hm]
  rfl

/-- C6: when the collaborator answers with at least five articles whose
dates the parser accepts, the formatting pass renders exactly five entries
— the first five articles, in order — each containing the literal title and
the literal URL of its article, and `get_news` returns the header followed
by exactly those five rendered entries. -/
theorem formatter_five_entries (dp : String → Except String DateRec)
    (arts : List Article) (hlen : 5 ≤ arts.length)
    (hdp : ∀ a ∈ arts.take 5, ∃ d, dp a.publishedAt = Except.ok d) :
    ∃ es, mapExcept (formatArticle dp) (arts.take 5) = Except.ok es ∧
      es.length = 5 ∧
      (∀ pr ∈ (arts.take 5).zip es,
        substrB pr.1.title pr.2 = true ∧ substrB pr.1.url pr.2 = true) ∧
      ∀ client : NewsApi, client.getTopHeadlines = Except.ok arts →
        getNews (mkChatbot (some "k") client) dp none none 5
          = "📰 Here are the latest news articles:\n\n" ++ String.join es := by
  obtain ⟨es, hes, hlen5, hz⟩ := mapExcept_ok dp (arts.take 5) hdp
  have hl5 : es.length = 5 := by
    rw [hlen5, List.length_take]
    exact min_eq_left hlen
  refine ⟨es, hes, hl5, hz, ?_⟩
  intro client htop
  have hapi : (mkChatbot (some "k") client).newsApi = some client := rfl
  have hfetch : fetchNews client none none = Except.ok arts := by
    simp [fetchNews, truthy, htop]
  have hrun := newsRun_ok client dp none none 5 arts es hfetch hes
  simp only [getNews, hapi, hrun]

/-- C6 witness: six sample articles are truncated to five rendered entries,
each containing its article's title and URL. -/
theorem formatter_five_entries_witness :
    ∃ es, mapExcept (formatArticle okDp) (sampleArticles.take 5) = Except.ok es ∧
      es.length = 5 ∧
      (∀ pr ∈ (sampleArticles.take 5).zip es,
        substrB pr.1.title pr.2 = true ∧ substrB pr.1.url pr.2 = true) ∧
      ∀ client : NewsApi, client.getTopHeadlines = Except.ok sampleArticles →
        getNews (mkChatbot (some "k") client) okDp none none 5
          = "📰 Here are the latest news articles:\n\n" ++ String.join es :=
  formatter_five_entries okDp sampleArticles (by decide)
    (fun a _ => ⟨⟨2024, 1, 1⟩, rfl⟩)

/-- C9: for inputs with no news-trigger and no category keyword, the
conversational checks run in the order greeting, farewell, gratitude, first
match wins, and the response is drawn from exactly the matched pool and
lies in no other pool. -/
theorem conversational_pools_exclusive (apiKey : Option String) (client : NewsApi)
    (dp : String → Except String DateRec) (ents : List Entity) (choice : Nat)
    (input : String)
    (htrig : containsAny (pyLower input) newsTriggerWords = false)
    (hnocat : ∀ c ∈ categoryKeys, substrB c (pyLower input) = false) :
    (containsAny (pyLower input) greetingWords = true →
      (processQueryS (mkChatbot apiKey client) dp ents choice input).1 ∈ poolOf "greeting" ∧
      ¬ (processQueryS (mkChatbot apiKey client) dp ents choice input).1 ∈ poolOf "goodbye" ∧
      ¬ (processQueryS (mkChatbot apiKey client) dp ents choice input).1 ∈ poolOf "thanks" ∧
      ¬ (processQueryS (mkChatbot apiKey client) dp ents choice input).1 ∈ poolOf "default") ∧
    (containsAny (pyLower input) greetingWords = false →
      containsAny (pyLower input) goodbyeWords = true →
      (processQueryS (mkChatbot apiKey client) dp ents choice input).1 ∈ poolOf "goodbye" ∧
      ¬ (processQueryS (mkChatbot apiKey client) dp ents choice input).1 ∈ poolOf "greeting" ∧
      ¬ (processQueryS (mkChatbot apiKey client) dp ents choice input).1 ∈ poolOf "thanks" ∧
      ¬ (processQueryS (mkChatbot apiKey client) dp ents choice input).1 ∈ poolOf "default") ∧
    (containsAny (pyLower input) greetingWords = false →
      containsAny (pyLower input) goodbyeWords = false →
      containsAny (pyLower input) thanksWords = true →
      (processQueryS (mkChatbot apiKey client) dp ents choice input).1 ∈ poolOf "thanks" ∧
      ¬ (processQueryS (mkChatbot apiKey client) dp ents choice input).1 ∈ poolOf "greeting" ∧
      ¬ (processQueryS (mkChatbot apiKey client) dp ents choice input).1 ∈ poolOf "goodbye" ∧
      ¬ (processQueryS (mkChatbot apiKey client) dp ents choice input).1 ∈ poolOf "default") := by
  have hnone : categoryKeys.find? (fun c => substrB c (pyLower input)) = none := by
    rw [List.find?_eq_none]
    intro x hx
    simp [hnocat x hx]
  refine ⟨?_, ?_, ?_⟩
  · intro hgt
    have heq : (processQueryS (mkChatbot apiKey client) dp ents choice input).1
        = pick (poolOf "greeting") choice := by
      simp only [processQueryS, mkChatbot_keys, htrig, Bool.false_eq_true, if_false,
        hnone, hgt, if_true, lookupPool_mkChatbot]
    refine ⟨?_, ?_, ?_, ?_⟩ <;> rw [heq]
    · exact pick_mem _ _ (by decide)
    · exact pick_not_mem _ _ _ (by decide) (by decide)
    · exact pick_not_mem _ _ _ (by decide) (by decide)
    · exact pick_not_mem _ _ _ (by decide) (by decide)
  · intro hgf hbt
    have heq : (processQueryS (mkChatbot apiKey client) dp ents choice input).1
        = pick (poolOf "goodbye") choice := by
      simp only [processQueryS, mkChatbot_keys, htrig, hgf, Bool.false_eq_true, if_false,
        hnone, hbt, if_true, lookupPool_mkChatbot]
    refine ⟨?_, ?_, ?_, ?_⟩ <;> rw [heq]
    · exact pick_mem _ _ (by decide)
    · exact pick_not_mem _ _ _ (by decide) (by decide)
    · exact pick_not_mem _ _ _ (by decide) (by decide)
    · exact pick_not_mem _ _ _ (by decide) (by decide)
  · intro hgf hbf htt
    have heq : (processQueryS (mkChatbot apiKey client) dp ents choice input).1
        = pick (poolOf "thanks") choice := by
      simp only [processQueryS, mkChatbot_keys, htrig, hgf, hbf, Bool.false_eq_true,
        if_false, hnone, htt, if_true, lookupPool_mkChatbot]
    refine ⟨?_, ?_, ?_, ?_⟩ <;> rw [heq]
    · exact pick_mem _ _ (by decide)
    · exact pick_not_mem _ _ _ (by decide) (by decide)
    · exact pick_not_mem _ _ _ (by decide) (by decide)
    · exact pick_not_mem _ _ _ (by decide) (by decide)

/-- C9 witness: the input "thanks" matches only the gratitude set and is
answered from the thanks pool, in particular never from the greeting pool. -/
theorem conversational_pools_exclusive_witness :
    (containsAny (pyLower "thanks") greetingWords = true →
      (processQueryS (mkChatbot (some "k") stubClient) stubDp [] 0 "thanks").1 ∈ poolOf "greeting" ∧
      ¬ (processQueryS (mkChatbot (some "k") stubClient) stubDp [] 0 "thanks").1 ∈ poolOf "goodbye" ∧
      ¬ (processQueryS (mkChatbot (some "k") stubClient) stubDp [] 0 "thanks").1 ∈ poolOf "thanks" ∧
      ¬ (processQueryS (mkChatbot (some "k") stubClient) stubDp [] 0 "thanks").1 ∈ poolOf "default") ∧
    (containsAny (pyLower "thanks") greetingWords = false →
      containsAny (pyLower "thanks") goodbyeWords = true →
      (processQueryS (mkChatbot (some "k") stubClient) stubDp [] 0 "thanks").1 ∈ poolOf "goodbye" ∧
      ¬ (processQueryS (mkChatbot (some "k") stubClient) stubDp [] 0 "thanks").1 ∈ poolOf "greeting" ∧
      ¬ (processQueryS (mkChatbot (some "k") stubClient) stubDp [] 0 "thanks").1 ∈ poolOf "thanks" ∧
      ¬ (processQueryS (mkChatbot (some "k") stubClient) stubDp [] 0 "thanks").1 ∈ poolOf "default") ∧
    (containsAny (pyLower "thanks") greetingWords = false →
      containsAny (pyLower "thanks") goodbyeWords = false →
      containsAny (pyLower "thanks") thanksWords = true →
      (processQueryS (mkChatbot (some "k") stubClient) stubDp [] 0 "thanks").1 ∈ poolOf "thanks" ∧
      ¬ (processQueryS (mkChatbot (some "k") stubClient) stubDp [] 0 "thanks").1 ∈ poolOf "greeting" ∧
      ¬ (processQueryS (mkChatbot (some "k") stubClient) stubDp [] 0 "thanks").1 ∈ poolOf "goodbye" ∧
      ¬ (processQueryS (mkChatbot (some "k") stubClient) stubDp [] 0 "thanks").1 ∈ poolOf "default") :=
  conversational_pools_exclusive (some "k") stubClient stubDp [] 0 "thanks"
    (by decide) (by decide)
